import Mathlib

/-!
Verification of the NutriScan barcode-to-nutrition pipeline
(`src/nutriscan_app.py`): the cache store, the nutrition resolver
(`scan_barcode`), the remote lookup client (`fetch_barcode_data`) and the
preference evaluator (`check_nutrition`), shallowly embedded in Lean.

Numbers are modelled as `Int`.  Effects (cache lookups, remote calls,
persists, log lines, UI warnings) are made explicit as output traces so
that call-counting properties can be stated.  Python exceptions that the
code can actually raise to the caller are modelled with `Except`; the
environment (HTTP response, decoder outcome) is passed as an explicit
argument.
-/

set_option autoImplicit false

namespace NutriScan

/-- The internal nutrition record shape built by `fetch_barcode_data`
(lines 57-65 of the source), field order as in the source. -/
structure NutritionRecord where
  name : String
  calories : Int
  fat : Int
  carbs : Int
  protein : Int
  sugar : Int
  fiber : Int
  deriving Repr, DecidableEq

/-- A nutrition dict as seen by `check_nutrition`: each key may be absent
(Python `data.get(k, 0)` defaults, `data[k]` raises `KeyError`). -/
structure NutritionData where
  name : Option String := none
  calories : Option Int := none
  protein : Option Int := none
  fat : Option Int := none
  carbs : Option Int := none
  sugar : Option Int := none
  fiber : Option Int := none
  deriving Repr, DecidableEq

/-- View a full record as a dict with every key present. -/
def NutritionRecord.toData (r : NutritionRecord) : NutritionData :=
  { name := some r.name, calories := some r.calories, protein := some r.protein,
    fat := some r.fat, carbs := some r.carbs, sugar := some r.sugar,
    fiber := some r.fiber }

/-- The cache store `db["barcodes"]`: a mapping from barcode string to
record, modelled as an association list (insertion order, as a Python
dict preserves it). -/
abbrev Cache := List (String × NutritionRecord)

/-- `db["barcodes"].get(barcode)` (line 95). -/
def cacheGet (db : Cache) (k : String) : Option NutritionRecord :=
  match db with
  | [] => none
  | (k', v) :: rest => if k' = k then some v else cacheGet rest k

/-- `db["barcodes"][barcode] = record` (line 101): Python dict assignment,
replacing in place when the key exists and appending otherwise. -/
def cachePut (db : Cache) (k : String) (v : NutritionRecord) : Cache :=
  match db with
  | [] => [(k, v)]
  | (k', v') :: rest =>
    if k' = k then (k, v) :: rest else (k', v') :: cachePut rest k v

/-! ## Remote lookup client (`fetch_barcode_data`, lines 43-70) -/

/-- The `product.nutriments` JSON sub-object; every field optional
(`nutriments.get(k, 0)` in the source). -/
structure ApiNutriments where
  energy_kcal_100g : Option Int := none
  fat_100g : Option Int := none
  carbohydrates_100g : Option Int := none
  proteins_100g : Option Int := none
  sugars_100g : Option Int := none
  fiber_100g : Option Int := none
  deriving Repr, DecidableEq

/-- The `data["product"]` JSON sub-object. -/
structure ApiProduct where
  product_name : Option String := none
  nutriments : Option ApiNutriments := none
  deriving Repr, DecidableEq

/-- The parsed JSON body: `data.get("status")` and `data.get("product")`
(a missing or empty product is modelled as `none`, matching Python
falsiness in `not data.get("product")`). -/
structure ApiResponse where
  status : Option Int := none
  product : Option ApiProduct := none
  deriving Repr, DecidableEq

/-- The outcome of `requests.get(url, timeout=5)` followed by
`response.json()`: a raised network exception, or a status code with a
body (`none` body = the JSON parse raises). -/
inductive HttpResponse where
  | exn : HttpResponse
  | resp : Nat → Option ApiResponse → HttpResponse
  deriving Repr, DecidableEq

/-- `fetch_barcode_data(barcode)` (lines 43-70), as a function of the
HTTP environment.  Every failure path returns `none`; the `try` swallows
the network and parse exceptions (`HttpResponse.exn`, `resp _ none`). -/
def fetch_barcode_data (_barcode : String) (r : HttpResponse) :
    Option NutritionRecord :=
  match r with
  | .exn => none
  | .resp code body =>
    if code ≠ 200 then none
    else
      match body with
      | none => none
      | some data =>
        if data.status ≠ some 1 then none
        else
          match data.product with
          | none => none
          | some product =>
            let nutriments := product.nutriments.getD {}
            some { name := product.product_name.getD "Unknown Product",
                   calories := nutriments.energy_kcal_100g.getD 0,
                   fat := nutriments.fat_100g.getD 0,
                   carbs := nutriments.carbohydrates_100g.getD 0,
                   protein := nutriments.proteins_100g.getD 0,
                   sugar := nutriments.sugars_100g.getD 0,
                   fiber := nutriments.fiber_100g.getD 0 }

/-- The source's success condition (line 48 and line 52): HTTP 200, JSON
parses, `status == 1` and a product present. -/
def remoteFound : HttpResponse → Bool
  | .exn => false
  | .resp code body =>
    code == 200 &&
      (match body with
       | none => false
       | some d => (d.status == some 1) && d.product.isSome)

/-! ## Nutrition resolver (`scan_barcode`, lines 72-109) -/

/-- One pyzbar decode result: payload (`barcode.data.decode("utf-8")`)
and symbology tag (`barcode.type`). -/
structure DecodedBarcode where
  data : String
  type : String
  deriving Repr, DecidableEq

/-- Outcome of the preprocessing + `pyzbar.decode` section: an exception
(caught at lines 107-109) or a list of decoded barcodes. -/
inductive DecodeOutcome where
  | failure : String → DecodeOutcome
  | ok : List DecodedBarcode → DecodeOutcome
  deriving Repr, DecidableEq

/-- Observable effects of one `scan_barcode` call: cache keys looked up,
barcodes passed to `fetch_barcode_data`, whole-store snapshots passed to
`save_nutrition_db`, log lines, and `st.warning` messages (in order). -/
structure ScanEffects where
  cacheLookups : List String := []
  remoteCalls : List String := []
  saves : List Cache := []
  logs : List String := []
  warnings : List String := []
  deriving Repr, DecidableEq

/-- The `for barcode in barcodes` loop of `scan_barcode` (lines 89-106).
`remote` abstracts `fetch_barcode_data` (its own logging is internal to
that component and not traced here).  Returns the resolved record (or
`none`), the final in-memory cache, and the effect trace. -/
def processBarcodes (remote : String → Option NutritionRecord) (db : Cache) :
    List DecodedBarcode → Option NutritionRecord × Cache × ScanEffects
  | [] => (none, db, {})
  | b :: rest =>
    if b.type = "PDF417" then
      let r := processBarcodes remote db rest
      (r.1, r.2.1,
        { r.2.2 with
          logs := ("Skipping unsupported PDF417 barcode: " ++ b.data) :: r.2.2.logs,
          warnings :=
            ("PDF417 barcode " ++ b.data ++ " not supported. Use UPC/EAN format.")
              :: r.2.2.warnings })
    else
      match cacheGet db b.data with
      | some info =>
        (some info, db,
          { cacheLookups := [b.data],
            logs := ["Barcode " ++ b.data ++ " found in cache: " ++ info.name] })
      | none =>
        match remote b.data with
        | some info =>
          (some info, cachePut db b.data info,
            { cacheLookups := [b.data], remoteCalls := [b.data],
              saves := [cachePut db b.data info] })
        | none =>
          let r := processBarcodes remote db rest
          (r.1, r.2.1,
            { r.2.2 with
              cacheLookups := b.data :: r.2.2.cacheLookups,
              remoteCalls := b.data :: r.2.2.remoteCalls,
              logs := ("Barcode " ++ b.data ++ " not found in Open Food Facts")
                        :: r.2.2.logs,
              warnings :=
                ("Barcode " ++ b.data ++ " not found in database or Open Food Facts.")
                  :: r.2.2.warnings })

/-- `scan_barcode(image)` (lines 72-109) as a function of the decoder
outcome, the remote client and the loaded cache.  A decode failure is
caught (lines 107-109) and turned into `None`; an empty decode list
returns `None` at line 88. -/
def scan_barcode (decoded : DecodeOutcome)
    (remote : String → Option NutritionRecord) (db : Cache) :
    Option NutritionRecord × Cache × ScanEffects :=
  match decoded with
  | .failure msg =>
    (none, db, { logs := ["Barcode scanning failed: " ++ msg] })
  | .ok [] =>
    (none, db, { logs := ["No barcodes found in image"] })
  | .ok (b :: rest) => processBarcodes remote db (b :: rest)

/-! ## Preference evaluator (`check_nutrition`, lines 111-122) -/

/-- One `if data.get(f, 0) CMP t: mismatches.append(f"... {data[f]} ...")`
line: the comparison defaults a missing key to 0, but building the
message reads the key without a default and raises `KeyError` when it is
absent. -/
def fieldMismatch (field : Option Int) (bad : Int → Bool)
    (msg : Int → String) : Except String (List String) :=
  if bad (field.getD 0) then
    match field with
    | some v => Except.ok [msg v]
    | none => Except.error "KeyError"
  else Except.ok []

/-- `check_nutrition(data, ...)` (lines 111-122).  `data = none` models a
falsy record (line 113).  The result is `(len(mismatches) == 0,
mismatches)`; a `KeyError` raised while formatting a message is the
`Except.error` case. -/
def check_nutrition (data : Option NutritionData)
    (max_calories min_protein max_fat max_carbs max_sugar min_fiber : Int) :
    Except String (Bool × List String) :=
  match data with
  | none => Except.ok (false, [])
  | some d =>
    (fieldMismatch d.calories (fun x => decide (x > max_calories))
        (fun v => "Calories (" ++ toString v ++ " > " ++ toString max_calories ++ ")")).bind
      fun m1 =>
    (fieldMismatch d.protein (fun x => decide (x < min_protein))
        (fun v => "Protein (" ++ toString v ++ " < " ++ toString min_protein ++ ")")).bind
      fun m2 =>
    (fieldMismatch d.fat (fun x => decide (x > max_fat))
        (fun v => "Fat (" ++ toString v ++ " > " ++ toString max_fat ++ ")")).bind
      fun m3 =>
    (fieldMismatch d.carbs (fun x => decide (x > max_carbs))
        (fun v => "Carbs (" ++ toString v ++ " > " ++ toString max_carbs ++ ")")).bind
      fun m4 =>
    (fieldMismatch d.sugar (fun x => decide (x > max_sugar))
        (fun v => "Sugar (" ++ toString v ++ " > " ++ toString max_sugar ++ ")")).bind
      fun m5 =>
    (fieldMismatch d.fiber (fun x => decide (x < min_fiber))
        (fun v => "Fiber (" ++ toString v ++ " < " ++ toString min_fiber ++ ")")).bind
      fun m6 =>
    let mismatches := m1 ++ m2 ++ m3 ++ m4 ++ m5 ++ m6
    Except.ok (mismatches.length == 0, mismatches)

/-! ## Concrete sample data for witnesses -/

/-- A sample record. -/
def rec0 : NutritionRecord :=
  { name := "Oats", calories := 350, fat := 7, carbs := 60, protein := 12,
    sugar := 1, fiber := 10 }

/-- A sample cached barcode. -/
def b0 : DecodedBarcode := { data := "123", type := "EAN-13" }

/-- A sample uncached barcode. -/
def b1 : DecodedBarcode := { data := "456", type := "EAN-13" }

/-- A sample PDF417 barcode. -/
def bp : DecodedBarcode := { data := "789", type := "PDF417" }

/-- A sample cache holding `b0` only. -/
def db0 : Cache := [("123", rec0)]

/-- A remote client that always misses. -/
def remote0 : String → Option NutritionRecord := fun _ => none

/-- A remote client that always returns `rec0`. -/
def remote1 : String → Option NutritionRecord := fun _ => some rec0

/-! ## Helper lemmas -/

theorem cacheGet_cachePut_self (db : Cache) (k : String) (v : NutritionRecord) :
    cacheGet (cachePut db k v) k = some v := by
  induction db with
  | nil => simp [cachePut, cacheGet]
  | cons p rest ih =>
    obtain ⟨k', v'⟩ := p
    by_cases h : k' = k
    · simp [cachePut, cacheGet, h]
    · simp [cachePut, cacheGet, h, ih]

theorem except_bind_ok {α β : Type} {e : Except String α}
    {f : α → Except String β} {r : β} (h : e.bind f = Except.ok r) :
    ∃ a, e = Except.ok a ∧ f a = Except.ok r := by
  cases e with
  | error s => simp [Except.bind] at h
  | ok a => exact ⟨a, rfl, h⟩

theorem fieldMismatch_some (v : Int) (bad : Int → Bool) (msg : Int → String) :
    fieldMismatch (some v) bad msg =
      Except.ok (if bad v then [msg v] else []) := by
  simp only [fieldMismatch, Option.getD_some]
  split <;> simp_all

/-- A key that is present in the cache is never passed to the remote
client, whatever the decoded barcode list is. -/
theorem not_mem_remoteCalls (remote : String → Option NutritionRecord)
    (db : Cache) (k : String) (hk : (cacheGet db k).isSome = true) :
    ∀ bs : List DecodedBarcode,
      k ∉ (processBarcodes remote db bs).2.2.remoteCalls := by
  intro bs
  induction bs with
  | nil => simp [processBarcodes]
  | cons b rest ih =>
    by_cases hb : b.type = "PDF417"
    · simpa [processBarcodes, hb] using ih
    · simp only [processBarcodes, hb, if_false, ite_false]
      cases hcg : cacheGet db b.data with
      | some info => simp
      | none =>
        cases hr : remote b.data with
        | some info =>
          simp only [List.mem_singleton]
          intro hkb
          rw [hkb] at hk
          rw [hcg] at hk
          simp at hk
        | none =>
          simp only [List.mem_cons]
          rintro (hkb | hmem)
          · rw [hkb] at hk; rw [hcg] at hk; simp at hk
          · exact ih hmem

/-! ## Claims about the preference evaluator -/

/-- Claim C3: for every evaluated (non-null) record and every choice of
the six thresholds, whenever `check_nutrition` returns, the returned
`passed` flag is true if and only if the returned mismatch list is
empty. -/
theorem check_nutrition_passed_iff_no_mismatch (d : NutritionData)
    (mc mp mf mcb ms mfb : Int) (r : Bool × List String)
    (h : check_nutrition (some d) mc mp mf mcb ms mfb = Except.ok r) :
    r.1 = true ↔ r.2 = [] := by
  unfold check_nutrition at h
  obtain ⟨m1, h1, h⟩ := except_bind_ok h
  obtain ⟨m2, h2, h⟩ := except_bind_ok h
  obtain ⟨m3, h3, h⟩ := except_bind_ok h
  obtain ⟨m4, h4, h⟩ := except_bind_ok h
  obtain ⟨m5, h5, h⟩ := except_bind_ok h
  obtain ⟨m6, h6, h⟩ := except_bind_ok h
  simp only [Except.ok.injEq] at h
  subst h
  simp [List.length_eq_zero]

/-- Claim C3 witness: a concrete record evaluated at thresholds it
meets exactly yields `passed = true` and an empty mismatch list. -/
theorem check_nutrition_passed_iff_no_mismatch_witness :
    ((true, ([] : List String)).1 = true ↔ (true, ([] : List String)).2 = []) :=
  check_nutrition_passed_iff_no_mismatch rec0.toData 400 2 10 90 10 1
    (true, []) rfl

/-- Claim C7: a record whose six nutrient values each equal the
corresponding threshold produces no mismatch: the upper bounds pass at
equality (`>` fails) and the lower bounds pass at equality (`<` fails),
so `check_nutrition` returns `(true, [])`. -/
theorem check_nutrition_boundary_passes (nm : Option String)
    (mc mp mf mcb ms mfb : Int) :
    check_nutrition
      (some { name := nm, calories := some mc, protein := some mp,
              fat := some mf, carbs := some mcb, sugar := some ms,
              fiber := some mfb })
      mc mp mf mcb ms mfb = Except.ok (true, []) := by
  simp [check_nutrition, fieldMismatch_some, Except.bind, lt_irrefl]

/-- Claim C9: a falsy (absent/null) record always yields
`passed = false` together with an empty mismatch list, whatever the
thresholds are. -/
theorem check_nutrition_absent_record (mc mp mf mcb ms mfb : Int) :
    check_nutrition none mc mp mf mcb ms mfb = Except.ok (false, []) := rfl

/-- Claim C10: on a non-absent record that contains all six nutrient
keys, `check_nutrition` is total: it returns a result and never raises
the `KeyError` that reading a missing key in a mismatch message would
cause. -/
theorem check_nutrition_total_on_full_record (d : NutritionData)
    (mc mp mf mcb ms mfb : Int)
    (h1 : d.calories.isSome = true) (h2 : d.protein.isSome = true)
    (h3 : d.fat.isSome = true) (h4 : d.carbs.isSome = true)
    (h5 : d.sugar.isSome = true) (h6 : d.fiber.isSome = true) :
    ∃ r, check_nutrition (some d) mc mp mf mcb ms mfb = Except.ok r := by
  obtain ⟨v1, hv1⟩ := Option.isSome_iff_exists.mp h1
  obtain ⟨v2, hv2⟩ := Option.isSome_iff_exists.mp h2
  obtain ⟨v3, hv3⟩ := Option.isSome_iff_exists.mp h3
  obtain ⟨v4, hv4⟩ := Option.isSome_iff_exists.mp h4
  obtain ⟨v5, hv5⟩ := Option.isSome_iff_exists.mp h5
  obtain ⟨v6, hv6⟩ := Option.isSome_iff_exists.mp h6
  simp only [check_nutrition]
  rw [hv1, hv2, hv3, hv4, hv5, hv6]
  simp [fieldMismatch_some, Except.bind]

/-- Claim C10 witness: a fully populated concrete record is evaluated
without error. -/
theorem check_nutrition_total_on_full_record_witness :
    ∃ r, check_nutrition (some rec0.toData) 0 0 0 0 0 0 = Except.ok r :=
  check_nutrition_total_on_full_record rec0.toData 0 0 0 0 0 0
    (by decide) (by decide) (by decide) (by decide) (by decide) (by decide)

/-! ## Claims about the resolver -/

/-- Claim C1: when the first decoded (non-PDF417) barcode is present in
the cache store, `scan_barcode` returns the cached record with one cache
lookup, no remote call, no save and the cache unchanged; moreover a
cached key is never passed to the remote client for any decoded barcode
list. -/
theorem scan_barcode_cache_hit (remote : String → Option NutritionRecord)
    (db : Cache) (b : DecodedBarcode) (rec : NutritionRecord)
    (rest bs : List DecodedBarcode)
    (hty : b.type ≠ "PDF417") (hget : cacheGet db b.data = some rec) :
    scan_barcode (DecodeOutcome.ok (b :: rest)) remote db =
      (some rec, db,
        { cacheLookups := [b.data],
          logs := ["Barcode " ++ b.data ++ " found in cache: " ++ rec.name] }) ∧
    b.data ∉ (processBarcodes remote db bs).2.2.remoteCalls := by
  constructor
  · simp [scan_barcode, processBarcodes, hty, hget]
  · exact not_mem_remoteCalls remote db b.data (by simp [hget]) bs

/-- Claim C1 witness: concrete cache hit with no remote call. -/
theorem scan_barcode_cache_hit_witness :
    scan_barcode (DecodeOutcome.ok [b0]) remote0 db0 =
      (some rec0, db0,
        { cacheLookups := [b0.data],
          logs := ["Barcode " ++ b0.data ++ " found in cache: " ++ rec0.name] }) ∧
    b0.data ∉ (processBarcodes remote0 db0 [b0]).2.2.remoteCalls :=
  scan_barcode_cache_hit remote0 db0 b0 rec0 [] [b0] (by decide) rfl

/-- Claim C2: when the first decoded (non-PDF417) barcode is absent from
the cache and the remote client returns a record, `scan_barcode` calls
the remote client exactly once for that barcode, inserts the record into
the cache, persists the whole updated store exactly once, and returns
the record; looking the barcode up in the persisted store yields the
same record (idempotent insert). -/
theorem scan_barcode_miss_fetch_insert
    (remote : String → Option NutritionRecord) (db : Cache)
    (b : DecodedBarcode) (rec : NutritionRecord) (rest : List DecodedBarcode)
    (hty : b.type ≠ "PDF417") (hmiss : cacheGet db b.data = none)
    (hrem : remote b.data = some rec) :
    scan_barcode (DecodeOutcome.ok (b :: rest)) remote db =
      (some rec, cachePut db b.data rec,
        { cacheLookups := [b.data], remoteCalls := [b.data],
          saves := [cachePut db b.data rec] }) ∧
    cacheGet (cachePut db b.data rec) b.data = some rec := by
  constructor
  · simp [scan_barcode, processBarcodes, hty, hmiss, hrem]
  · exact cacheGet_cachePut_self db b.data rec

/-- Claim C2 witness: concrete cache miss resolved remotely, inserted
and persisted. -/
theorem scan_barcode_miss_fetch_insert_witness :
    scan_barcode (DecodeOutcome.ok [b1]) remote1 db0 =
      (some rec0, cachePut db0 b1.data rec0,
        { cacheLookups := [b1.data], remoteCalls := [b1.data],
          saves := [cachePut db0 b1.data rec0] }) ∧
    cacheGet (cachePut db0 b1.data rec0) b1.data = some rec0 :=
  scan_barcode_miss_fetch_insert remote1 db0 b1 rec0 [] (by decide) rfl rfl

/-- Claim C4: a decoded barcode tagged PDF417 triggers no cache lookup,
no remote call and no save for its payload: the scan result, the final
cache and the lookup/call/save traces are exactly those of the remaining
decoded barcodes, plus the per-barcode log line and user warning. -/
theorem processBarcodes_pdf417_skipped
    (remote : String → Option NutritionRecord) (db : Cache)
    (b : DecodedBarcode) (rest : List DecodedBarcode)
    (hty : b.type = "PDF417") :
    processBarcodes remote db (b :: rest) =
      ((processBarcodes remote db rest).1,
       (processBarcodes remote db rest).2.1,
       { (processBarcodes remote db rest).2.2 with
         logs := ("Skipping unsupported PDF417 barcode: " ++ b.data)
                   :: (processBarcodes remote db rest).2.2.logs,
         warnings :=
           ("PDF417 barcode " ++ b.data ++ " not supported. Use UPC/EAN format.")
             :: (processBarcodes remote db rest).2.2.warnings }) := by
  simp [processBarcodes, hty]

/-- Claim C4 witness: a concrete PDF417 barcode is skipped and scanning
continues with the remaining barcode, which hits the cache. -/
theorem processBarcodes_pdf417_skipped_witness :
    processBarcodes remote0 db0 [bp, b0] =
      ((processBarcodes remote0 db0 [b0]).1,
       (processBarcodes remote0 db0 [b0]).2.1,
       { (processBarcodes remote0 db0 [b0]).2.2 with
         logs := ("Skipping unsupported PDF417 barcode: " ++ bp.data)
                   :: (processBarcodes remote0 db0 [b0]).2.2.logs,
         warnings :=
           ("PDF417 barcode " ++ bp.data ++ " not supported. Use UPC/EAN format.")
             :: (processBarcodes remote0 db0 [b0]).2.2.warnings }) :=
  processBarcodes_pdf417_skipped remote0 db0 bp [b0] rfl

/-- Claim C8: when the only decoded (non-PDF417) barcode is absent from
the cache and the remote client returns absent, `scan_barcode` returns
absent, leaves the cache exactly as it was, adds no key and triggers no
save. -/
theorem scan_barcode_miss_absent_unchanged
    (remote : String → Option NutritionRecord) (db : Cache)
    (b : DecodedBarcode) (hty : b.type ≠ "PDF417")
    (hmiss : cacheGet db b.data = none) (hrem : remote b.data = none) :
    scan_barcode (DecodeOutcome.ok [b]) remote db =
      (none, db,
        { cacheLookups := [b.data], remoteCalls := [b.data],
          logs := ["Barcode " ++ b.data ++ " not found in Open Food Facts"],
          warnings :=
            ["Barcode " ++ b.data ++ " not found in database or Open Food Facts."] }) := by
  simp [scan_barcode, processBarcodes, hty, hmiss, hrem]

/-- Claim C8 witness: concrete miss with an absent remote leaves the
store unchanged and saves nothing. -/
theorem scan_barcode_miss_absent_unchanged_witness :
    scan_barcode (DecodeOutcome.ok [b1]) remote0 db0 =
      (none, db0,
        { cacheLookups := [b1.data], remoteCalls := [b1.data],
          logs := ["Barcode " ++ b1.data ++ " not found in Open Food Facts"],
          warnings :=
            ["Barcode " ++ b1.data ++ " not found in database or Open Food Facts."] }) :=
  scan_barcode_miss_absent_unchanged remote0 db0 b1 (by decide) rfl rfl

/-- Claim C5 counterexample: the claim says a decode failure is
surfaced to the caller as an outcome distinguishable from "zero barcodes
found", but `scan_barcode` returns the same value (`None`, cache
unchanged) in both cases: the caller cannot tell them apart. -/
theorem scan_barcode_decode_failure_indistinguishable :
    (scan_barcode (DecodeOutcome.failure "cv2 error") remote0 db0).1 =
      (scan_barcode (DecodeOutcome.ok []) remote0 db0).1 ∧
    (scan_barcode (DecodeOutcome.failure "cv2 error") remote0 db0).2.1 =
      (scan_barcode (DecodeOutcome.ok []) remote0 db0).2.1 ∧
    (scan_barcode (DecodeOutcome.failure "cv2 error") remote0 db0).1 = none := by
  refine ⟨rfl, rfl, rfl⟩

/-- Claim C5 amended: a decode failure and a zero-barcode image both
yield the absent result and an unchanged cache to the caller of
`scan_barcode`; the two cases are distinguished only out-of-band, by
their distinct log lines. -/
theorem scan_barcode_decode_failure_vs_empty
    (msg : String) (remote : String → Option NutritionRecord) (db : Cache) :
    scan_barcode (DecodeOutcome.failure msg) remote db =
      (none, db, { logs := ["Barcode scanning failed: " ++ msg] }) ∧
    scan_barcode (DecodeOutcome.ok []) remote db =
      (none, db, { logs := ["No barcodes found in image"] }) ∧
    ("Barcode scanning failed: " ++ msg) ≠ "No barcodes found in image" := by
  refine ⟨rfl, rfl, ?_⟩
  intro h
  have h2 := congrArg String.data h
  rw [String.data_append] at h2
  have h3 : (some 'B' : Option Char) = some 'N' := congrArg List.head? h2
  simp at h3

/-! ## Claims about the remote lookup client -/

/-- Claim C6: `fetch_barcode_data` never propagates a raised fault: a
network or parse exception, a non-200 status, a status field other than
1 and a missing product all produce `none`; a result is present exactly
when the source's success condition holds, and on success the missing
nutrient fields default to 0 and a missing product name defaults to
"Unknown Product". -/
theorem fetch_barcode_data_no_fault (barcode : String) (r : HttpResponse) :
    ((fetch_barcode_data barcode r).isSome = remoteFound r) ∧
    (fetch_barcode_data barcode r = none ∨
      ∃ d p, r = HttpResponse.resp 200 (some d) ∧ d.status = some 1 ∧
        d.product = some p ∧
        fetch_barcode_data barcode r = some
          { name := p.product_name.getD "Unknown Product",
            calories := (p.nutriments.getD {}).energy_kcal_100g.getD 0,
            fat := (p.nutriments.getD {}).fat_100g.getD 0,
            carbs := (p.nutriments.getD {}).carbohydrates_100g.getD 0,
            protein := (p.nutriments.getD {}).proteins_100g.getD 0,
            sugar := (p.nutriments.getD {}).sugars_100g.getD 0,
            fiber := (p.nutriments.getD {}).fiber_100g.getD 0 }) := by
  cases r with
  | exn => exact ⟨rfl, Or.inl rfl⟩
  | resp code body =>
    by_cases hc : code = 200
    · subst hc
      cases body with
      | none => exact ⟨rfl, Or.inl rfl⟩
      | some d =>
        by_cases hs : d.status = some 1
        · cases hp : d.product with
          | none =>
            constructor
            · simp [fetch_barcode_data, remoteFound, hs, hp]
            · left; simp [fetch_barcode_data, hs, hp]
          | some p =>
            constructor
            · simp [fetch_barcode_data, remoteFound, hs, hp]
            · right; exact ⟨d, p, rfl, hs, hp, by simp [fetch_barcode_data, hs, hp]⟩
        · constructor
          · simp [fetch_barcode_data, remoteFound, hs]
          · left; simp [fetch_barcode_data, hs]
    · refine ⟨?_, Or.inl ?_⟩
      · simp [fetch_barcode_data, remoteFound, hc]
      · simp [fetch_barcode_data, hc]

end NutriScan
